import Mathlib

/-!
# CharacterHelper.h : custom LCD glyphs and their registration

A shallow embedding of `src/CharacterHelper.h`.

* `byte` values are natural numbers; the Arduino binary constants `B00100`, ...
  are written as Lean binary literals `0b00100`, ...
* `byte phoneIcon[8]` and `byte clockIcon[8]` are file-scope, non-`const` arrays.
  Their initialisers are the definitions `phoneIcon` and `clockIcon`; their
  current contents are fields of the program state `Memory`.
* `LiquidCrystal_I2C` comes from an external library header and is not part of
  the sources.  The routine is embedded over an arbitrary driver
  (`LiquidCrystal_I2C m σ`), and three drivers are then supplied: the
  custom-character memory (`cgram`), a recording test double (`recorder`) and
  arbitrary fallible drivers (`m = Except ε`).
* `createChar` receives its bitmap as a pointer to non-`const` bytes.  Where
  the contents of the arrays after the call matter, the routine is embedded
  over `LiquidCrystal_I2C_ptr m σ`, whose `createChar` also yields the
  contents of the array it was handed as the call leaves them
  (`initCustomCharacters_ptr`).  A driver that only reads the array is the
  special case `LiquidCrystal_I2C.copying`, on which the two embeddings agree
  (`init_ptr_copying`).
-/

namespace CharacterHelper

/-! ## Glyph data -/

/-- Initialiser of `byte phoneIcon[8]` (phone icon, for focus mode). -/
def phoneIcon : List Nat :=
  [ 0b00100,
    0b01110,
    0b10101,
    0b10101,
    0b10101,
    0b10101,
    0b01110,
    0b00100 ]

/-- Initialiser of `byte clockIcon[8]` (clock icon). -/
def clockIcon : List Nat :=
  [ 0b00000,
    0b01110,
    0b10101,
    0b10111,
    0b10001,
    0b01110,
    0b00000,
    0b00000 ]

/-! ## Program state and driver interface -/

/-- Modelled from the spec: the class `LiquidCrystal_I2C` (header
`LiquidCrystal_I2C.h`, an external library that is not among the sources).
The only capability the routine consumes is `createChar`, "load a custom
character bitmap into slot N", taking a slot index and a bitmap.  The driver
"copies the bitmap data into its own hardware-backed storage" and "the source
arrays remain owned by this module", so the capability receives the bytes of
the array and yields the next driver state; `m` carries the effects of the
driver (`Id` for an infallible one, `Except ε` for one that can fail). -/
structure LiquidCrystal_I2C (m : Type → Type) (σ : Type) where
  /-- The method `lcd.createChar(location, charmap)`. -/
  createChar : Nat → List Nat → σ → m σ

/-- The state the routine runs in: the current contents of the two file-scope
arrays and the state of the driver object `lcd` passed by reference. -/
structure Memory (σ : Type) where
  /-- Contents of `phoneIcon[8]`. -/
  phoneIcon : List Nat
  /-- Contents of `clockIcon[8]`. -/
  clockIcon : List Nat
  /-- State of the display driver. -/
  lcd : σ

/-- The state at program start: both arrays hold their initialisers. -/
def Memory.boot {σ : Type} (lcd : σ) : Memory σ :=
  Memory.mk CharacterHelper.phoneIcon CharacterHelper.clockIcon lcd

/-- The routine `void initCustomCharacters(LiquidCrystal_I2C &lcd)`:
`lcd.createChar(0, phoneIcon); lcd.createChar(1, clockIcon);`.
The routine returns `void`; the value produced is the state it leaves. -/
def initCustomCharacters {m : Type → Type} [Monad m] {σ : Type}
    (drv : LiquidCrystal_I2C m σ) (s : Memory σ) : m (Memory σ) := do
  -- Create phone icon at position 0
  let lcd1 ← drv.createChar 0 s.phoneIcon s.lcd
  -- Create clock icon at position 1
  let lcd2 ← drv.createChar 1 s.clockIcon lcd1
  pure (Memory.mk s.phoneIcon s.clockIcon lcd2)

/-! ## Drivers -/

/-- Modelled from the spec: the number of custom-character slots of the
display ("typically 8 slots on common character-LCD controllers"). -/
abbrev numSlots : Nat := 8

/-- Modelled from the spec: the display's custom-character memory, one bitmap
per glyph slot. -/
abbrev CGRAM : Type := Fin numSlots → List Nat

/-- Modelled from the spec: the upload capability of the real display,
"load a custom character bitmap into slot N": the bitmap is stored in the
slot and every other slot keeps its contents.  The spec bounds the slot index
by the hardware limit and says nothing about larger indices; here the index is
reduced modulo the slot count.  The routine only uses slots 0 and 1. -/
def cgram : LiquidCrystal_I2C Id CGRAM where
  createChar location charmap mem :=
    Function.update mem ⟨location % numSlots, Nat.mod_lt _ (by decide)⟩ charmap

/-- Modelled from the spec: the test double of the end-to-end scenario, a
driver "that records (slot, bitmap) pairs passed to its upload capability".
Its state is the log of the calls made so far, oldest first. -/
def recorder : LiquidCrystal_I2C Id (List (Nat × List Nat)) where
  createChar location charmap log := log ++ [(location, charmap)]

/-! ## The bitmap argument as a pointer -/

/-- Modelled from the spec: the class `LiquidCrystal_I2C` (external library,
not among the sources) with the bitmap parameter of `createChar` as the source
passes it: `phoneIcon` and `clockIcon` decay to pointers to non-`const` bytes,
so the method is able to write the array it is handed.  Here `createChar`
yields the next driver state together with the contents of that array when
the call returns.  Whether a driver "copies the bitmap data into its own
hardware-backed storage" and leaves the array alone is then a property of the
driver, not of this type. -/
structure LiquidCrystal_I2C_ptr (m : Type → Type) (σ : Type) where
  /-- The method `lcd.createChar(location, charmap)`; the second component of
  the result is `charmap[0..7]` after the call. -/
  createChar : Nat → List Nat → σ → m (σ × List Nat)

/-- The routine `void initCustomCharacters(LiquidCrystal_I2C &lcd)` over a
driver that may write the arrays: `lcd.createChar(0, phoneIcon);` leaves
`phoneIcon` as the driver left it, `lcd.createChar(1, clockIcon);` likewise
for `clockIcon`.  The routine has no assignment to either array of its own. -/
def initCustomCharacters_ptr {m : Type → Type} [Monad m] {σ : Type}
    (drv : LiquidCrystal_I2C_ptr m σ) (s : Memory σ) : m (Memory σ) := do
  -- Create phone icon at position 0
  let r1 ← drv.createChar 0 s.phoneIcon s.lcd
  -- Create clock icon at position 1
  let r2 ← drv.createChar 1 s.clockIcon r1.1
  pure (Memory.mk r1.2 r2.2 r2.1)

/-- A driver that only reads the bitmap, seen as a driver over the pointer
interface: the array is handed back as it was received. -/
def LiquidCrystal_I2C.copying {m : Type → Type} [Monad m] {σ : Type}
    (drv : LiquidCrystal_I2C m σ) : LiquidCrystal_I2C_ptr m σ where
  createChar location charmap lcd := do
    let lcd1 ← drv.createChar location charmap lcd
    pure (lcd1, charmap)

/-- A driver that writes through the pointer: it stores nothing and sets the
first row of the array it is handed to 31. -/
def scribbler : LiquidCrystal_I2C_ptr Id Unit where
  createChar _ charmap lcd := (lcd, 31 :: charmap.tail)

/-! ## Helper lemmas -/

theorem init_id {σ : Type} (drv : LiquidCrystal_I2C Id σ) (s : Memory σ) :
    Id.run (initCustomCharacters drv s)
      = Memory.mk s.phoneIcon s.clockIcon
          (drv.createChar 1 s.clockIcon (drv.createChar 0 s.phoneIcon s.lcd)) :=
  rfl

theorem phoneIcon_bytes :
    phoneIcon = [0x04, 0x0E, 0x15, 0x15, 0x15, 0x15, 0x0E, 0x04] := by decide

theorem clockIcon_bytes :
    clockIcon = [0x00, 0x0E, 0x15, 0x17, 0x11, 0x0E, 0x00, 0x00] := by decide

/-- Concrete run: the recording test double, started with an empty log. -/
theorem recorder_from_empty :
    (Id.run (initCustomCharacters recorder (Memory.boot []))).lcd
      = [(0, [4, 14, 21, 21, 21, 21, 14, 4]), (1, [0, 14, 21, 23, 17, 14, 0, 0])] := by
  decide

/-- Concrete run: a driver that rejects every upload to slot 1 with error 5
and accepts the others; the routine then fails with that error. -/
theorem failing_second_upload :
    initCustomCharacters
        (LiquidCrystal_I2C.mk
          (fun location _ (count : Nat) =>
            if location = 1 then Except.error 5 else Except.ok (count + 1)))
        (Memory.boot 0)
      = (Except.error 5 : Except Nat (Memory Nat)) := by
  rfl

/-- On a driver that only reads the bitmap the two embeddings of the routine
agree. -/
theorem init_ptr_copying {m : Type → Type} [Monad m] [LawfulMonad m] {σ : Type}
    (drv : LiquidCrystal_I2C m σ) (s : Memory σ) :
    initCustomCharacters_ptr drv.copying s = initCustomCharacters drv s := by
  simp [initCustomCharacters_ptr, initCustomCharacters, LiquidCrystal_I2C.copying]

/-- Concrete run: a driver that writes through the pointer changes both
arrays, so that the arrays survive the routine is a fact about the driver. -/
theorem scribbler_changes_arrays :
    (Id.run (initCustomCharacters_ptr scribbler (Memory.boot ()))).phoneIcon
        = [31, 14, 21, 21, 21, 21, 14, 4]
    ∧ (Id.run (initCustomCharacters_ptr scribbler (Memory.boot ()))).clockIcon
        = [31, 14, 21, 23, 17, 14, 0, 0] := by
  decide

theorem recording_calls {σ : Type} (drv : LiquidCrystal_I2C Id σ)
    (log : σ → List (Nat × List Nat))
    (hrec : ∀ (n : Nat) (b : List Nat) (s : σ),
      log (drv.createChar n b s) = log s ++ [(n, b)])
    (s : Memory σ) :
    log (Id.run (initCustomCharacters drv s)).lcd
      = log s.lcd ++ [(0, s.phoneIcon), (1, s.clockIcon)] := by
  rw [init_id]
  simp only [hrec, List.append_assoc, List.singleton_append]

/-! ## Stored bitmaps -/

/-- C1: for every initial custom-character memory, slot 0 holds the bytes
04 0E 15 15 15 15 0E 04 (hex) as soon as the first upload has run, and it
still holds them in the state the routine leaves, i.e. after the second
upload. -/
theorem slot0_holds_phoneIcon (mem : CGRAM) :
    (Id.run (cgram.createChar 0 (Memory.boot mem).phoneIcon mem)) 0
        = [0x04, 0x0E, 0x15, 0x15, 0x15, 0x15, 0x0E, 0x04]
    ∧ (Id.run (initCustomCharacters cgram (Memory.boot mem))).lcd 0
        = [0x04, 0x0E, 0x15, 0x15, 0x15, 0x15, 0x0E, 0x04] := by
  refine ⟨?_, ?_⟩
  · show Function.update mem 0 phoneIcon 0 = _
    rw [Function.update_same, phoneIcon_bytes]
  · show Function.update (Function.update mem 0 phoneIcon) 1 clockIcon 0 = _
    rw [Function.update_noteq (by decide), Function.update_same, phoneIcon_bytes]

/-- C2: for every initial custom-character memory, slot 1 holds the bytes
00 0E 15 17 11 0E 00 00 (hex) in the state the routine leaves. -/
theorem slot1_holds_clockIcon (mem : CGRAM) :
    (Id.run (initCustomCharacters cgram (Memory.boot mem))).lcd 1
      = [0x00, 0x0E, 0x15, 0x17, 0x11, 0x0E, 0x00, 0x00] := by
  show Function.update (Function.update mem 0 phoneIcon) 1 clockIcon 1 = _
  rw [Function.update_same, clockIcon_bytes]

/-! ## Calls made to the driver -/

/-- C3: for every driver whose state carries a log to which each upload
appends its (slot, bitmap) pair, one run of the routine from program start
appends exactly two records, (0, phone bitmap) and then (1, clock bitmap),
whatever the prior state of the driver. -/
theorem two_uploads_recorded {σ : Type} (drv : LiquidCrystal_I2C Id σ)
    (log : σ → List (Nat × List Nat))
    (hrec : ∀ (n : Nat) (b : List Nat) (s : σ),
      log (drv.createChar n b s) = log s ++ [(n, b)])
    (lcd : σ) :
    log (Id.run (initCustomCharacters drv (Memory.boot lcd))).lcd
        = log lcd ++ [(0, [0x04, 0x0E, 0x15, 0x15, 0x15, 0x15, 0x0E, 0x04]),
                      (1, [0x00, 0x0E, 0x15, 0x17, 0x11, 0x0E, 0x00, 0x00])]
    ∧ (log (Id.run (initCustomCharacters drv (Memory.boot lcd))).lcd).length
        = (log lcd).length + 2 := by
  have h := recording_calls drv log hrec (Memory.boot lcd)
  have hp : (Memory.boot lcd).phoneIcon
      = [0x04, 0x0E, 0x15, 0x15, 0x15, 0x15, 0x0E, 0x04] := phoneIcon_bytes
  have hc : (Memory.boot lcd).clockIcon
      = [0x00, 0x0E, 0x15, 0x17, 0x11, 0x0E, 0x00, 0x00] := clockIcon_bytes
  rw [hp, hc] at h
  refine ⟨h, ?_⟩
  rw [h, List.length_append]
  rfl

/-- Witness of C3: the recording test double, started with one earlier
record in its log. -/
theorem two_uploads_recorded_witness :
    (∀ (n : Nat) (b : List Nat) (s : List (Nat × List Nat)),
        id (recorder.createChar n b s) = id s ++ [(n, b)])
    ∧ (id (Id.run (initCustomCharacters recorder (Memory.boot [(7, [1, 2])]))).lcd
          = id [(7, [1, 2])]
              ++ [(0, [0x04, 0x0E, 0x15, 0x15, 0x15, 0x15, 0x0E, 0x04]),
                  (1, [0x00, 0x0E, 0x15, 0x17, 0x11, 0x0E, 0x00, 0x00])]
        ∧ (id (Id.run (initCustomCharacters recorder
              (Memory.boot [(7, [1, 2])]))).lcd).length
            = (id [(7, [1, 2])]).length + 2) :=
  ⟨fun _ _ _ => rfl,
   two_uploads_recorded recorder id (fun _ _ _ => rfl) [(7, [1, 2])]⟩

/-! ## Idempotence and frame -/

/-- C4: on the custom-character memory the routine is idempotent: running it
twice in succession leaves the same state as running it once, from every
state. -/
theorem init_idempotent (s : Memory CGRAM) :
    Id.run (initCustomCharacters cgram (Id.run (initCustomCharacters cgram s)))
      = Id.run (initCustomCharacters cgram s) := by
  rw [init_id, init_id]
  congr 1
  funext i
  show Function.update (Function.update
        (Function.update (Function.update s.lcd 0 s.phoneIcon) 1 s.clockIcon)
          0 s.phoneIcon) 1 s.clockIcon i
      = Function.update (Function.update s.lcd 0 s.phoneIcon) 1 s.clockIcon i
  by_cases h1 : i = 1
  · subst h1
    rw [Function.update_same, Function.update_same]
  · rw [Function.update_noteq h1, Function.update_noteq h1]
    by_cases h0 : i = 0
    · subst h0
      rw [Function.update_same, Function.update_same]
    · rw [Function.update_noteq h0, Function.update_noteq h1,
        Function.update_noteq h0]

/-- C5: both glyphs have exactly 8 rows and every row is a 5-bit pattern:
each byte is below 32, so bits 5, 6 and 7 are clear. -/
theorem glyphs_are_5x8 :
    phoneIcon.length = 8 ∧ clockIcon.length = 8
    ∧ (∀ b ∈ phoneIcon, b < 32 ∧ b &&& 0xE0 = 0)
    ∧ (∀ b ∈ clockIcon, b < 32 ∧ b &&& 0xE0 = 0) := by
  decide

/-- C7: with a fallible driver the routine fails with error e exactly when
the first upload fails with e, or the first upload succeeds and the second
fails with e; it succeeds exactly when both uploads succeed, and then yields
nothing but the state left by the second upload. -/
theorem failure_propagates {ε σ : Type} (drv : LiquidCrystal_I2C (Except ε) σ)
    (s : Memory σ) :
    (∀ e : ε, initCustomCharacters drv s = Except.error e ↔
        (drv.createChar 0 s.phoneIcon s.lcd = Except.error e
          ∨ ∃ lcd1, drv.createChar 0 s.phoneIcon s.lcd = Except.ok lcd1
              ∧ drv.createChar 1 s.clockIcon lcd1 = Except.error e))
    ∧ (∀ t : Memory σ, initCustomCharacters drv s = Except.ok t ↔
        ∃ lcd1 lcd2, drv.createChar 0 s.phoneIcon s.lcd = Except.ok lcd1
          ∧ drv.createChar 1 s.clockIcon lcd1 = Except.ok lcd2
          ∧ t = Memory.mk s.phoneIcon s.clockIcon lcd2) := by
  unfold initCustomCharacters
  cases h1 : drv.createChar 0 s.phoneIcon s.lcd with
  | error e1 =>
    refine ⟨fun e => ?_, fun t => ?_⟩
    · show (Except.error e1 : Except ε (Memory σ)) = Except.error e ↔ _
      simp
    · show (Except.error e1 : Except ε (Memory σ)) = Except.ok t ↔ _
      simp
  | ok l1 =>
    cases h2 : drv.createChar 1 s.clockIcon l1 with
    | error e2 =>
      refine ⟨fun e => ?_, fun t => ?_⟩
      · show (do let lcd2 ← drv.createChar 1 s.clockIcon l1
                 pure (Memory.mk s.phoneIcon s.clockIcon lcd2)) = Except.error e ↔ _
        rw [h2]
        show (Except.error e2 : Except ε (Memory σ)) = Except.error e ↔ _
        simp [h2]
      · show (do let lcd2 ← drv.createChar 1 s.clockIcon l1
                 pure (Memory.mk s.phoneIcon s.clockIcon lcd2)) = Except.ok t ↔ _
        rw [h2]
        show (Except.error e2 : Except ε (Memory σ)) = Except.ok t ↔ _
        simp [h2]
    | ok l2 =>
      refine ⟨fun e => ?_, fun t => ?_⟩
      · show (do let lcd2 ← drv.createChar 1 s.clockIcon l1
                 pure (Memory.mk s.phoneIcon s.clockIcon lcd2)) = Except.error e ↔ _
        rw [h2]
        show (Except.ok (Memory.mk s.phoneIcon s.clockIcon l2) : Except ε (Memory σ))
          = Except.error e ↔ _
        simp [h2]
      · show (do let lcd2 ← drv.createChar 1 s.clockIcon l1
                 pure (Memory.mk s.phoneIcon s.clockIcon lcd2)) = Except.ok t ↔ _
        rw [h2]
        show (Except.ok (Memory.mk s.phoneIcon s.clockIcon l2) : Except ε (Memory σ))
          = Except.ok t ↔ _
        simp [h2]
        exact eq_comm

/-- C8: for every initial custom-character memory and every slot n with
2 ≤ n < 8, slot n holds after the routine what it held before. -/
theorem other_slots_untouched (mem : CGRAM) (n : Nat) (h2 : 2 ≤ n)
    (h8 : n < numSlots) :
    (Id.run (initCustomCharacters cgram (Memory.boot mem))).lcd ⟨n, h8⟩
      = mem ⟨n, h8⟩ := by
  show Function.update (Function.update mem 0 phoneIcon) 1 clockIcon ⟨n, h8⟩ = _
  have n1 : (⟨n, h8⟩ : Fin numSlots) ≠ 1 := by
    intro h
    have := congrArg Fin.val h
    simp at this
    omega
  have n0 : (⟨n, h8⟩ : Fin numSlots) ≠ 0 := by
    intro h
    have := congrArg Fin.val h
    simp at this
    omega
  rw [Function.update_noteq n1, Function.update_noteq n0]

/-- Witness of C8: slot 2 of a memory whose slots all hold the single row 31. -/
theorem other_slots_untouched_witness :
    (2 ≤ 2 ∧ 2 < numSlots)
    ∧ (Id.run (initCustomCharacters cgram
          (Memory.boot (fun _ => [31])))).lcd ⟨2, by decide⟩
        = (fun (_ : Fin numSlots) => [31]) ⟨2, by decide⟩ :=
  ⟨by decide,
   other_slots_untouched (fun _ => [31]) 2 (by decide) (by decide)⟩

/-- C9: whatever the driver has recorded before, the two uploads of one run
go to slots below the slot count (so reducing the index modulo the slot count
leaves it as it is), the two slots differ, and the two bitmaps differ; on the
custom-character memory the phone glyph is therefore still in slot 0 once the
clock glyph is in slot 1. -/
theorem slots_valid_and_distinct (log : List (Nat × List Nat)) (mem : CGRAM) :
    (∀ c ∈ ((Id.run (initCustomCharacters recorder (Memory.boot log))).lcd).drop
          log.length,
        c.1 < numSlots ∧ c.1 % numSlots = c.1)
    ∧ ((((Id.run (initCustomCharacters recorder (Memory.boot log))).lcd).drop
          log.length).map Prod.fst).Nodup
    ∧ ((((Id.run (initCustomCharacters recorder (Memory.boot log))).lcd).drop
          log.length).map Prod.snd).Nodup
    ∧ (Id.run (initCustomCharacters cgram (Memory.boot mem))).lcd 0
        ≠ (Id.run (initCustomCharacters cgram (Memory.boot mem))).lcd 1 := by
  have h : ((Id.run (initCustomCharacters recorder (Memory.boot log))).lcd).drop
      log.length = [(0, phoneIcon), (1, clockIcon)] := by
    have := recording_calls recorder id (fun _ _ _ => rfl) (Memory.boot log)
    simp only [id] at this
    rw [this]
    simp [Memory.boot]
  rw [h]
  refine ⟨by decide, by decide, by decide, ?_⟩
  show Function.update (Function.update mem 0 phoneIcon) 1 clockIcon 0
      ≠ Function.update (Function.update mem 0 phoneIcon) 1 clockIcon 1
  rw [Function.update_noteq (by decide), Function.update_same,
    Function.update_same]
  decide

end CharacterHelper
